import Mathlib

/-!
Verification of the SkateboardCoaching repository (Express server + Replicate
model pipeline). The definitions below are a shallow embedding of the
server-side JavaScript: `cleanText` (the regex-based text normalizer appearing
identically in `src/server/index.js` and the pose-pipeline module), the
four-stage pose-based orchestration, the `/api/upload`, `/api/analyze-pose`,
`/api/chat` and `/api/health` handlers. Outbound Replicate model calls are
abstracted as environments of `Except`-valued results; strings are modeled as
their character lists with JS regex-replace semantics implemented directly for
the (fixed) patterns the source uses.
-/

namespace SC

/-! ### Character classes (JS regex, restricted to the ASCII range that the
     repository's strings use: `\s` is space, tab, LF, CR, VT, FF; `\b` is the
     JS word boundary over `[A-Za-z0-9_]`). -/

def isWsChar (c : Char) : Bool :=
  c = ' ' || c = '\t' || c = '\n' || c = '\r' || c = '\x0b' || c = '\x0c'

def isSpaceTab (c : Char) : Bool :=
  c = ' ' || c = '\t'

def isWordChar (c : Char) : Bool :=
  c.isAlpha || c.isDigit || c = '_'

/-! ### JS `String.replace` with the fixed patterns used by `cleanText` -/

/-- `.replace(/[ \t]+/g, ' ')`: collapse each maximal run of spaces/tabs to a
single space. The `Bool` argument records whether the previous input character
was part of a run. -/
def collapseSTAux : Bool → List Char → List Char
  | _, [] => []
  | inRun, c :: t =>
    if isSpaceTab c then
      if inRun then collapseSTAux true t else ' ' :: collapseSTAux true t
    else c :: collapseSTAux false t

def collapseST (l : List Char) : List Char := collapseSTAux false l

/-- `.replace(/\s+/g, ' ')` (used on `cleanAnalysis` in the upload handler). -/
def collapseWsAux : Bool → List Char → List Char
  | _, [] => []
  | inRun, c :: t =>
    if isWsChar c then
      if inRun then collapseWsAux true t else ' ' :: collapseWsAux true t
    else c :: collapseWsAux false t

def collapseWs (l : List Char) : List Char := collapseWsAux false l

/-- `.replace(/\s*P\s*/g, r)` for a single punctuation character `P`:
leftmost-greedy scan of the input. `pend` buffers whitespace not yet known to
precede a `P`; `inSkip` is set right after a replacement while the greedy
trailing `\s*` of the match is still consuming whitespace. -/
def replSurAux (p : Char) (r : List Char) : List Char → Bool → List Char → List Char
  | pend, _, [] => pend.reverse
  | pend, inSkip, c :: t =>
    if inSkip && isWsChar c then replSurAux p r pend true t
    else if c = p then r ++ replSurAux p r [] true t
    else if isWsChar c then replSurAux p r (c :: pend) false t
    else pend.reverse ++ c :: replSurAux p r [] false t

def replSur (p : Char) (r : String) (l : List Char) : List Char :=
  replSurAux p r.data [] false l

/-- `.replace(/\n[ \t]+/g, '\n')`: drop the run of spaces/tabs immediately
following each line break. -/
def nlStripAux : Bool → List Char → List Char
  | _, [] => []
  | afterNl, c :: t =>
    if afterNl && isSpaceTab c then nlStripAux true t
    else if c = '\n' then '\n' :: nlStripAux true t
    else c :: nlStripAux false t

def nlStrip (l : List Char) : List Char := nlStripAux false l

/-- JS `String.prototype.trim`. -/
def trimWs (l : List Char) : List Char :=
  ((l.dropWhile isWsChar).reverse.dropWhile isWsChar).reverse

/-! ### Word-segmentation repair rules: `.replace(/\bW1\s+W2\s+...\s+Wk\b/g, r)` -/

/-- Match the token sequence `tks` (literal tokens separated by `\s+`) at the
head of `s`; return the remainder on success. The greedy `\s+` is equivalent
to "maximal whitespace run" because every token starts with a non-whitespace
character. -/
def matchToks : List (List Char) → List Char → Option (List Char)
  | [], s => some s
  | [tk], s => if tk.isPrefixOf s then some (s.drop tk.length) else none
  | tk :: tks, s =>
    if tk.isPrefixOf s then
      let s1 := s.drop tk.length
      let s2 := s1.dropWhile isWsChar
      if s1.length = s2.length then none  -- \s+ needs at least one whitespace
      else matchToks tks s2
    else none

/-- The trailing `\b`: fine after the match since every rule's last token ends
in a word character. -/
def endBoundaryOk : List Char → Bool
  | [] => true
  | c :: _ => !isWordChar c

/-- Global replace for one word rule. `prevWord` tracks whether the previous
character of the *input* was a word character (JS matches against the input
string, not the partially built output). The `Nat` argument is a scan bound
for structural recursion: it starts at the input length, and since every step
consumes at least one input character (all rule tokens below are nonempty),
the exhausted-bound branch is unreachable. -/
def replWordAux (tks : List (List Char)) (r : List Char) : Nat → Bool → List Char → List Char
  | 0, _, s => s
  | _ + 1, _, [] => []
  | fuel + 1, prevWord, c :: t =>
    if prevWord then c :: replWordAux tks r fuel (isWordChar c) t
    else
      match matchToks tks (c :: t) with
      | none => c :: replWordAux tks r fuel (isWordChar c) t
      | some rest =>
        if endBoundaryOk rest then r ++ replWordAux tks r fuel true rest
        else c :: replWordAux tks r fuel (isWordChar c) t

def replWord (toks : List String) (r : String) (s : List Char) : List Char :=
  replWordAux (toks.map String.data) r.data s.length false s

/-- The word-segmentation repair table, in the exact order of the source's
`.replace` chain (including the repeated `Im prov e ment` rule). -/
def wordRules : List (List String × String) :=
  [ (["Ass", "ess", "ment"], "Assessment"),
    (["Over", "all"], "Overall"),
    (["Str", "ength", "s"], "Strengths"),
    (["Are", "as"], "Areas"),
    (["Im", "prov", "e", "ment"], "Improvement"),
    (["Dr", "ills"], "Drills"),
    (["Ex", "er", "cis", "es"], "Exercises"),
    (["Pract", "ice"], "Practice"),
    (["snow", "board", "er"], "snowboarder"),
    (["snow", "board"], "snowboard"),
    (["demonstr", "ates"], "demonstrates"),
    (["post", "ure"], "posture"),
    (["kne", "es"], "knees"),
    (["an", "k", "les"], "ankles"),
    (["position", "ing"], "positioning"),
    (["relax", "ed"], "relaxed"),
    (["adjust", "ed"], "adjusted"),
    (["incorpor", "ating"], "incorporating"),
    (["enh", "ance"], "enhance"),
    (["init", "iation"], "initiation"),
    (["B", "ased"], "Based"),
    (["snowboarder", "\x27", "s"], "snowboarder\x27s"),
    (["App", "ropri", "ate"], "Appropriate"),
    (["Center", "ed"], "Centered"),
    (["Im", "prov", "e", "ment"], "Improvement"),
    (["Spec", "ific"], "Specific"),
    (["adjust", "ing"], "adjusting"),
    (["F", "ocus"], "Focus"),
    (["maintain", "ing"], "maintaining"),
    (["navig", "ating"], "navigating"),
    (["terra", "ins"], "terrains"),
    (["W", "ould"], "Would"),
    (["1", "0"], "10"),
    (["bal", "anced"], "balanced"),
    (["kne", "e"], "knee"),
    (["an", "k", "le"], "ankle"),
    (["snowboard", "ing"], "snowboarding"),
    (["sp", "ine"], "spine"),
    (["h", "ips"], "hips"),
    (["el", "b", "ows"], "elbows"),
    (["Ne", "ut", "ral"], "Neutral"),
    (["Pro", "per"], "Proper"),
    (["We", "ight"], "Weight"),
    (["sh", "ifting"], "shifting"),
    (["j", "umps"], "jumps"),
    (["exer", "cis", "es"], "exercises"),
    (["squ", "ats"], "squats"),
    (["bo", "ards"], "boards"),
    (["In", "cor", "por", "ate"], "Incorporate") ]

/-- `cleanText` from `src/server/index.js` (the identical copy also appears in
the pose-pipeline module): word-segmentation repairs, then space/punctuation
normalization, then trim. The `if (!text) return text` guard corresponds to
returning the empty string unchanged. -/
def cleanChars (s : List Char) : List Char :=
  let s := wordRules.foldl (fun acc tr => replWord tr.1 tr.2 acc) s
  let s := collapseST s
  let s := replSur '/' "/" s
  let s := replSur ':' ": " s
  let s := replSur '-' "-" s
  let s := replSur ',' ", " s
  let s := replSur '.' ". " s
  let s := replSur '(' "(" s
  let s := replSur ')' ")" s
  let s := replSur '*' "**" s
  let s := nlStrip s
  trimWs s

def cleanText (s : String) : String :=
  if s = "" then s else String.mk (cleanChars s.data)

/-! ### Replicate model outputs and the call environment

The pose-pipeline code duck-types the provider's responses. `RepOut` covers
the shapes the pose-extraction code branches on; `TextOut` covers the
string-or-token-array shapes the text stages join with spaces. A call that
throws is an `Except.error` carrying the JS error message. The environment
abstracts the network: it maps each call site (loop index / phase, frame path)
to the outcome of that outbound request. -/

inductive RepOut where
  | arr (ss : List String)
  | str (s : String)
  | urlObj (u : String)
  | outObj (o : String)
  | other
deriving DecidableEq

inductive TextOut where
  | str (s : String)
  | arr (ss : List String)
deriving DecidableEq

/-- `Array.isArray(x) ? x.join(' ') : x`. -/
def TextOut.joinText : TextOut → String
  | .str s => s
  | .arr ss => String.intercalate " " ss

structure PipelineEnv where
  pose : Nat → String → Except String RepOut
  tech : Nat → String → Except String TextOut
  scene : String → String → Except String TextOut
  report : Except String TextOut

/-! ### Stage 0: `estimatePoses` -/

structure PoseAnalysis where
  frame : Nat
  poseData : RepOut
  poseImageUrl : Option String
deriving DecidableEq

structure PoseResult where
  poseAnalyses : List PoseAnalysis
  success : Bool
  frameCount : Nat
deriving DecidableEq

/-- The `if`/`else if` chain extracting the pose-overlay URL from the
ControlNet response (`poseEstimation[0]` on an array, the string itself, the
`url` or `output` field, else the raw value, modeled as `none`). -/
def extractPoseUrl : RepOut → Option String
  | .arr ss => ss.head?
  | .str s => some s
  | .urlObj u => some u
  | .outObj o => some o
  | .other => none

/-- JS `framePaths[i]` (out-of-range reads give `undefined`; the repository
never indexes out of range on the paths it uses, so the default is inert). -/
def frameAt (framePaths : List String) (i : Nat) : String :=
  framePaths.getD i ""

/-- One iteration of the per-frame loop: a failed call is logged and skipped
(per-frame `try`/`catch`), a successful one is pushed with index `i + 1`. -/
def poseStep (env : PipelineEnv) (framePaths : List String) (i : Nat) : Option PoseAnalysis :=
  match env.pose i (frameAt framePaths i) with
  | .ok out => some { frame := i + 1, poseData := out, poseImageUrl := extractPoseUrl out }
  | .error _ => none

/-- `for (let i = 0; i < Math.min(framePaths.length, 5); i++) ...`. -/
def poseLoop (env : PipelineEnv) (framePaths : List String) : List PoseAnalysis :=
  (List.range (min framePaths.length 5)).filterMap (poseStep env framePaths)

/-- Stage 0. The inner `throw` on an empty collection is caught by the outer
`catch`, which rethrows with the `Pose estimation failed:` prefix. -/
def estimatePoses (env : PipelineEnv) (videoPath : String) (framePaths : List String) :
    Except String PoseResult :=
  let poseAnalyses := poseLoop env framePaths
  if poseAnalyses.length = 0 then
    .error "Pose estimation failed: No frames could be analyzed for pose estimation"
  else
    .ok { poseAnalyses := poseAnalyses, success := true, frameCount := poseAnalyses.length }

/-! ### Stages 1 and 2: key-frame selection and the text stages -/

/-- `[framePaths[0], framePaths[Math.floor(framePaths.length / 2)],
     framePaths[framePaths.length - 1]]` (technical-analysis stage). -/
def techKeyFrames (framePaths : List String) : List String :=
  [frameAt framePaths 0,
   frameAt framePaths (framePaths.length / 2),
   frameAt framePaths (framePaths.length - 1)]

/-- `i === 0 ? 'beginning' : i === 1 ? 'middle' : 'end'`. -/
def frameLabel : Nat → String
  | 0 => "beginning"
  | 1 => "middle"
  | _ => "end"

def techLoop (env : PipelineEnv) (keyFrames : List String) : Except String (List String) :=
  (List.range keyFrames.length).mapM (fun i => do
    let out ← env.tech i (frameAt keyFrames i)
    pure ("=== " ++ (frameLabel i).toUpper ++ " FRAME ANALYSIS ===\n" ++ out.joinText))

/-- Stage 1: three labeled LLaVA responses joined by blank lines; any throw is
rethrown as `Technical analysis failed: ...`. -/
def analyzeTechnicalMovement (env : PipelineEnv) (framePaths : List String) :
    Except String String :=
  match techLoop env (techKeyFrames framePaths) with
  | .ok rs => .ok (String.intercalate "\n\n" rs)
  | .error e => .error ("Technical analysis failed: " ++ e)

/-- The scene stage's key frames with their movement-phase labels. -/
def sceneKeyFrames (framePaths : List String) : List (String × String) :=
  [(frameAt framePaths 0, "initiation"),
   (frameAt framePaths (framePaths.length / 2), "execution"),
   (frameAt framePaths (framePaths.length - 1), "completion")]

def sceneLoop (env : PipelineEnv) (kfs : List (String × String)) : Except String (List String) :=
  kfs.mapM (fun fp => do
    let out ← env.scene fp.2 fp.1
    pure ("=== " ++ fp.2.toUpper ++ " PHASE ===\n" ++ out.joinText))

/-- Stage 2 (`poseAnalyses` is received but unused, as in the source). -/
def describeScene (env : PipelineEnv) (framePaths : List String)
    (_poseAnalyses : List PoseAnalysis) : Except String String :=
  match sceneLoop env (sceneKeyFrames framePaths) with
  | .ok rs => .ok (String.intercalate "\n\n" rs)
  | .error e => .error ("Scene description failed: " ++ e)

/-! ### Stage 3: `generateCoachingReport` -/

/-- `detailedPrompts` object literals, as key-value association lists in the
JS key order. -/
def mkDetailedPrompts (strengths improvements drills : String) : List (String × String) :=
  [("strengths", strengths), ("improvements", improvements), ("drills", drills)]

def dpKeys (dp : List (String × String)) : List String := dp.map Prod.fst

def detailedStrengthsPrompt (ta : String) : String :=
  "Based on this technical analysis, provide detailed key strengths:\n\nTECHNICAL ANALYSIS:\n"
    ++ ta.take 2000
    ++ "...\n\nProvide 3-4 specific strengths with detailed explanations."

def detailedImprovementsPrompt (ta : String) : String :=
  "Based on this technical analysis, provide detailed areas for improvement:\n\nTECHNICAL ANALYSIS:\n"
    ++ ta.take 2000
    ++ "...\n\nProvide 3-4 specific areas that need work with detailed explanations."

def detailedDrillsPrompt (ta : String) : String :=
  "Based on this technical analysis, provide specific drills and exercises:\n\nTECHNICAL ANALYSIS:\n"
    ++ ta.take 2000
    ++ "...\n\nProvide 3-4 specific drills with descriptions and purposes."

structure CoachingReport where
  briefAssessment : String
  detailedPrompts : List (String × String)
  technicalAnalysis : String
  sceneDescription : String
  poseAnalyses : List PoseAnalysis
deriving DecidableEq

/-- Stage 3: one LLaMA call for the brief assessment; the three detailed
prompts are built (not submitted) from truncated technical-analysis text. -/
def generateCoachingReport (env : PipelineEnv) (technicalAnalysis sceneDescription : String)
    (poseAnalyses : List PoseAnalysis) : Except String CoachingReport :=
  match env.report with
  | .error e => .error ("Report generation failed: " ++ e)
  | .ok briefAssessment =>
    .ok { briefAssessment := cleanText briefAssessment.joinText,
          detailedPrompts := mkDetailedPrompts
            (detailedStrengthsPrompt technicalAnalysis)
            (detailedImprovementsPrompt technicalAnalysis)
            (detailedDrillsPrompt technicalAnalysis),
          technicalAnalysis := cleanText technicalAnalysis,
          sceneDescription := cleanText sceneDescription,
          poseAnalyses := poseAnalyses }

/-! ### The orchestrator: `analyzeSnowboardingVideoPoseBased` -/

structure AnalysisResult where
  success : Bool
  analysis : String
  poseVideoUrl : Option String
  poseAnalyses : Option (List PoseAnalysis)
  poseImages : List (Nat × Option String)
  technicalAnalysis : String
  sceneDescription : String
  detailedPrompts : Option (List (String × String))
  pipeline : String
  message : String
deriving DecidableEq

/-- The static fallback analysis string (no API calls). -/
def fallbackAnalysisText : String :=
  "Based on your snowboarding video analysis, I can see you\x27re working on your technique. Your form shows good potential with room for improvement in balance and edge control."

def fallbackBriefAssessment : String :=
  "**Subject: Snowboarding Technique Analysis and Coaching Advice**\n\nDear [Name],\n\nI have analyzed your snowboarding technique across multiple frames from your video. My analysis is based on the principles of safe and respectful coaching, with a focus on maintaining balance, control, and efficiency in your riding style.\n\n**Overall Assessment:**\n\n"
    ++ fallbackAnalysisText.take 200
    ++ "...\n\nI can provide more detailed information about your Key Strengths, Main Areas for Improvement, and Specific Drills and Exercises. Which would you like to learn more about?"

/-- The `Based on this snowboarding analysis, ...` prompt templates, shared by
the orchestrator's fallback branch and the upload handler's synthesized-prompts
branch (the two JS literals are identical up to the embedded analysis text). -/
def snowboardingStrengthsPrompt (a : String) : String :=
  "Based on this snowboarding analysis, provide detailed key strengths:\n\nANALYSIS:\n"
    ++ a.take 1500
    ++ "...\n\nProvide 3-4 specific strengths with detailed explanations."

def snowboardingImprovementsPrompt (a : String) : String :=
  "Based on this snowboarding analysis, provide detailed areas for improvement:\n\nANALYSIS:\n"
    ++ a.take 1500
    ++ "...\n\nProvide 3-4 specific areas that need work with detailed explanations."

def snowboardingDrillsPrompt (a : String) : String :=
  "Based on this snowboarding analysis, provide specific drills and exercises:\n\nANALYSIS:\n"
    ++ a.take 1500
    ++ "...\n\nProvide 3-4 specific drills with descriptions and purposes."

def fallbackDetailedPrompts : List (String × String) :=
  mkDetailedPrompts
    (snowboardingStrengthsPrompt fallbackAnalysisText)
    (snowboardingImprovementsPrompt fallbackAnalysisText)
    (snowboardingDrillsPrompt fallbackAnalysisText)

/-- The body of the orchestrator's `try` block: stages 0-3 in sequence, any
stage error aborting the chain. -/
def poseStagesChain (env : PipelineEnv) (videoPath : String) (framePaths : List String) :
    Except String (PoseResult × String × String × CoachingReport) :=
  match estimatePoses env videoPath framePaths with
  | .error e => .error e
  | .ok poseResult =>
    match analyzeTechnicalMovement env framePaths with
    | .error e => .error e
    | .ok technicalAnalysis =>
      match describeScene env framePaths poseResult.poseAnalyses with
      | .error e => .error e
      | .ok sceneDescription =>
        match generateCoachingReport env technicalAnalysis sceneDescription
            poseResult.poseAnalyses with
        | .error e => .error e
        | .ok coachingReport =>
          .ok (poseResult, technicalAnalysis, sceneDescription, coachingReport)

/-- `analyzeSnowboardingVideoPoseBased`: the 4-stage pipeline wrapped in
`try`/`catch`; the `catch` substitutes the static fallback report (with no
`poseAnalyses` field and an empty `poseImages`) and also reports
`success: true`. -/
def analyzeSnowboardingVideoPoseBased (env : PipelineEnv) (videoPath : String)
    (framePaths : List String) : AnalysisResult :=
  match poseStagesChain env videoPath framePaths with
  | .ok (poseResult, technicalAnalysis, sceneDescription, coachingReport) =>
    { success := true,
      analysis := coachingReport.briefAssessment,
      poseVideoUrl := none,
      poseAnalyses := some poseResult.poseAnalyses,
      poseImages := poseResult.poseAnalyses.map (fun p => (p.frame, p.poseImageUrl)),
      technicalAnalysis := technicalAnalysis,
      sceneDescription := sceneDescription,
      detailedPrompts := some coachingReport.detailedPrompts,
      pipeline := "pose-based-4stage",
      message := "Video analyzed using advanced ControlNet pose estimation pipeline" }
  | .error _ =>
    { success := true,
      analysis := fallbackBriefAssessment,
      poseVideoUrl := none,
      poseAnalyses := none,
      poseImages := [],
      technicalAnalysis := fallbackAnalysisText,
      sceneDescription := "Snowboarding technique analysis",
      detailedPrompts := some fallbackDetailedPrompts,
      pipeline := "image-based-fallback",
      message := "Video analyzed using fallback image-based pipeline" }

/-! ### HTTP layer: `/api/upload` and `/api/analyze-pose`

The scoped on-disk resources of one request: the multer-stored video, the
extracted frame files and their directory. `extractFrames` creates the frame
directory before invoking ffmpeg, so on an extraction error the directory (and
the video) remain. -/

structure FileState where
  videoExists : Bool
  frameDirExists : Bool
  frameFilesExist : Bool
deriving DecidableEq

/-- JS `x || y` for a possibly-undefined string field (undefined and the empty
string are both falsy). -/
def jsOr : Option String → String → String
  | some s, d => if s = "" then d else s
  | none, d => d

/-- The upload handler's `analysis` value: the pose pipeline returns a
structured object, the image-based pipelines return a plain string. -/
inductive AnalysisOutcome where
  | plain (s : String)
  | structured (r : AnalysisResult)
deriving DecidableEq

def outcomeAnalysisText : AnalysisOutcome → String
  | .plain s => s
  | .structured r => r.analysis

def outcomeDetailedPrompts : AnalysisOutcome → Option (List (String × String))
  | .plain _ => none
  | .structured r => r.detailedPrompts

def outcomePipeline : AnalysisOutcome → Option String
  | .plain _ => none
  | .structured r => some r.pipeline

def outcomePoseVideoUrl : AnalysisOutcome → Option String
  | .plain _ => none
  | .structured r => r.poseVideoUrl

def outcomeTechnicalAnalysis : AnalysisOutcome → Option String
  | .plain _ => none
  | .structured r => some r.technicalAnalysis

def outcomeSceneDescription : AnalysisOutcome → Option String
  | .plain _ => none
  | .structured r => some r.sceneDescription

def outcomeMessage : AnalysisOutcome → Option String
  | .plain _ => none
  | .structured r => some r.message

/-- The static assessment template substituted when the analysis carried no
`detailedPrompts`. -/
def uploadSynthesizedAssessment : String :=
  "I have analyzed your snowboarding technique across three frames and identified key strengths and areas for improvement. My findings are detailed below, with specific drills and exercises recommended to enhance your skills.\n\nComprehensive Coaching Report\nOverall Rating: 7/10\nKey Strengths: Good posture, appropriate joint angles, centered balance\nImprovements: Edge control, flow and rhythm\nBiomechanical Analysis: Specific joint angle measurements\nTechnical Recommendations: Balance exercises, edge control practice\nSafety Considerations: Proper gear recommendations\n\nI can provide more detailed information about your Key Strengths, Main Areas for Improvement, and Specific Drills and Exercises. Which would you like to learn more about?"

structure UploadResponse where
  success : Bool
  analysis : String
  pipeline : String
  poseVideoUrl : Option String
  technicalAnalysis : String
  sceneDescription : String
  detailedPrompts : Option (List (String × String))
  message : String
deriving DecidableEq

/-- Lines 174-209 of `src/server/index.js`: keep the pipeline's
`detailedPrompts` when present, otherwise synthesize the assessment string and
the three prompts from the whitespace-collapsed analysis text. -/
def uploadResponseOf (usePoseAnalysis : Bool) (a : AnalysisOutcome) : UploadResponse :=
  let sa0 := outcomeAnalysisText a
  let sadp : String × List (String × String) :=
    match outcomeDetailedPrompts a with
    | some dp => (sa0, dp)
    | none =>
      let cleanAnalysis := String.mk (trimWs (collapseWs sa0.data))
      (uploadSynthesizedAssessment,
       mkDetailedPrompts
         (snowboardingStrengthsPrompt cleanAnalysis)
         (snowboardingImprovementsPrompt cleanAnalysis)
         (snowboardingDrillsPrompt cleanAnalysis))
  { success := true,
    analysis := sadp.1,
    pipeline := jsOr (outcomePipeline a)
      (if usePoseAnalysis then "pose-based" else "image-based"),
    poseVideoUrl := outcomePoseVideoUrl a,
    technicalAnalysis := jsOr (outcomeTechnicalAnalysis a) sa0,
    sceneDescription := jsOr (outcomeSceneDescription a) "Snowboarding technique analysis",
    detailedPrompts := some sadp.2,
    message := jsOr (outcomeMessage a) "Video analyzed successfully" }

inductive UploadResult where
  | ok (resp : UploadResponse)
  | badRequest (error : String)
  | serverError (details : String)
deriving DecidableEq

/-- The per-request environment of an upload: whether multer received a file,
the pose flag, the ffmpeg extraction outcome, the extracted frame paths, and
the outcomes of the outbound model calls of each possible pipeline. -/
structure UploadEnv where
  hasFile : Bool
  usePoseAnalysis : Bool
  videoPath : String
  extract : Except String Unit
  frameFiles : List String
  pipelineEnv : PipelineEnv
  multiFrame : Except String String
  advanced : Except String String

/-- The inner `try`/`catch`: primary analysis (pose-based or multi-frame),
falling back to `analyzeSnowboardingVideoAdvanced` on a primary failure; a
fallback failure propagates to the outer `catch`. -/
def runUploadAnalysis (env : UploadEnv) : Except String AnalysisOutcome :=
  let primary : Except String AnalysisOutcome :=
    if env.usePoseAnalysis then
      .ok (.structured
        (analyzeSnowboardingVideoPoseBased env.pipelineEnv env.videoPath env.frameFiles))
    else
      match env.multiFrame with
      | .ok s => .ok (.plain s)
      | .error e => .error e
  match primary with
  | .ok a => .ok a
  | .error _ =>
    match env.advanced with
    | .ok s => .ok (.plain s)
    | .error e => .error e

/-- `POST /api/upload`. The cleanup lines (`unlinkSync` video and frames,
`rmdirSync` frame dir) sit inside the `try` block after the analysis; the
`catch` responds with HTTP 500 and performs no cleanup, so on the
frame-extraction-failure and analysis-failure exits the files remain. -/
def uploadHandler (env : UploadEnv) : UploadResult × FileState :=
  if !env.hasFile then
    (.badRequest "No video file uploaded",
     { videoExists := false, frameDirExists := false, frameFilesExist := false })
  else
    match env.extract with
    | .error e =>
      (.serverError e,
       { videoExists := true, frameDirExists := true, frameFilesExist := false })
    | .ok _ =>
      match runUploadAnalysis env with
      | .error e =>
        (.serverError e,
         { videoExists := true, frameDirExists := true, frameFilesExist := true })
      | .ok a =>
        (.ok (uploadResponseOf env.usePoseAnalysis a),
         { videoExists := false, frameDirExists := false, frameFilesExist := false })

structure PoseEndpointResponse where
  success : Bool
  analysis : String
  pipeline : String
  poseVideoUrl : Option String
  poseAnalyses : Option (List PoseAnalysis)
  poseImages : List (Nat × Option String)
  technicalAnalysis : String
  sceneDescription : String
  detailedPrompts : Option (List (String × String))
  message : String
deriving DecidableEq

/-- The `/api/analyze-pose` response literal (lines 452-466): the `pipeline`
field is the hard-coded string regardless of which path the orchestrator
took. -/
def poseResponseOf (r : AnalysisResult) : PoseEndpointResponse :=
  { success := true,
    analysis := r.analysis,
    pipeline := "pose-based-4stage",
    poseVideoUrl := r.poseVideoUrl,
    poseAnalyses := r.poseAnalyses,
    poseImages :=
      match r.poseAnalyses with
      | some pas => pas.map (fun p => (p.frame, p.poseImageUrl))
      | none => [],
    technicalAnalysis := r.technicalAnalysis,
    sceneDescription := r.sceneDescription,
    detailedPrompts := r.detailedPrompts,
    message := "Video analyzed using advanced pose estimation pipeline" }

inductive PoseEndpointResult where
  | ok (resp : PoseEndpointResponse)
  | badRequest (error : String)
  | serverError (details : String)
deriving DecidableEq

/-- `POST /api/analyze-pose`: always the pose-based orchestration; same
cleanup placement (inside the `try`, after the analysis) as `/api/upload`. -/
def analyzePoseHandler (env : UploadEnv) : PoseEndpointResult × FileState :=
  if !env.hasFile then
    (.badRequest "No video file uploaded",
     { videoExists := false, frameDirExists := false, frameFilesExist := false })
  else
    match env.extract with
    | .error e =>
      (.serverError e,
       { videoExists := true, frameDirExists := true, frameFilesExist := false })
    | .ok _ =>
      let analysis :=
        analyzeSnowboardingVideoPoseBased env.pipelineEnv env.videoPath env.frameFiles
      (.ok (poseResponseOf analysis),
       { videoExists := false, frameDirExists := false, frameFilesExist := false })

/-! ### HTTP layer: `/api/chat` -/

/-- JS `String.prototype.includes` over character lists. -/
def containsSub : List Char → List Char → Bool
  | [], nee => nee.isEmpty
  | h :: t, nee => nee.isPrefixOf (h :: t) || containsSub t nee

def strIncludes (s sub : String) : Bool := containsSub s.data sub.data

/-- JS `toLowerCase` (ASCII). -/
def lowerStr (s : String) : String := String.mk (s.data.map Char.toLower)

/-- The client-supplied `analysisData` body field; `detailedPrompts` is an
arbitrary JSON object, modeled as an association list (a missing key reads as
`undefined`, i.e. `none`). -/
structure AnalysisData where
  detailedPrompts : List (String × String)
  technicalAnalysis : String
  sceneDescription : String
deriving DecidableEq

def genericChatPrompt (question : String) (d : AnalysisData) : String :=
  "As a snowboarding coach, answer this question based on the technical analysis:\n\nQUESTION: "
    ++ question
    ++ "\n\nTECHNICAL ANALYSIS:\n"
    ++ d.technicalAnalysis.take 1500
    ++ "...\n\nSCENE DESCRIPTION:\n"
    ++ d.sceneDescription.take 800
    ++ "...\n\nProvide a helpful, specific answer about snowboarding technique."

structure ChatSelection where
  prompt : Option String
  sectionType : String
deriving DecidableEq

/-- Lines 236-258 of `src/server/index.js`: the keyword routing `if`/`else if`
chain (case-insensitive substring checks, first match wins; `sectionType`
stays the initial empty string on the generic branch). -/
def chatRoute (question : String) (d : AnalysisData) : ChatSelection :=
  let q := lowerStr question
  if strIncludes q "strength" || strIncludes q "good" || strIncludes q "positive" then
    { prompt := d.detailedPrompts.lookup "strengths", sectionType := "Key Strengths" }
  else if strIncludes q "improve" || strIncludes q "problem" || strIncludes q "issue"
      || strIncludes q "better" then
    { prompt := d.detailedPrompts.lookup "improvements",
      sectionType := "Main Areas for Improvement" }
  else if strIncludes q "drill" || strIncludes q "exercise" || strIncludes q "practice"
      || strIncludes q "work on" then
    { prompt := d.detailedPrompts.lookup "drills",
      sectionType := "Specific Drills and Exercises" }
  else
    { prompt := some (genericChatPrompt question d), sectionType := "" }

structure ChatResponse where
  success : Bool
  response : String
  sectionType : String
  message : String
deriving DecidableEq

inductive ChatResult where
  | ok (resp : ChatResponse)
  | badRequest (error : String)
  | serverError (details : String)
deriving DecidableEq

structure ChatEnv where
  llama : Except String TextOut

/-- `POST /api/chat`: validate, route, submit the selected prompt to LLaMA,
normalize the joined output with `cleanText`. -/
def chatHandler (env : ChatEnv) (question : String) (d : AnalysisData) : ChatResult :=
  if question = "" then .badRequest "Question and analysis data are required"
  else
    let sel := chatRoute question d
    match env.llama with
    | .error e => .serverError e
    | .ok out =>
      .ok { success := true,
            response := cleanText out.joinText,
            sectionType := sel.sectionType,
            message := "Response generated successfully" }

/-! ### HTTP layer: `GET /api/health` -/

structure HealthResponse where
  status : String
  timestamp : String
  pipelines : List String
  models : List (String × String)
deriving DecidableEq

/-- The `/api/health` response body; `timestamp` is
`new Date().toISOString()`, the clock reading at handling time. -/
def healthBody (now : String) : HealthResponse :=
  { status := "Server is running",
    timestamp := now,
    pipelines := ["image-based", "pose-based"],
    models :=
      [("poseEstimation", "jagilley/controlnet-pose (pose detection overlay)"),
       ("technicalAnalysis", "yorickvp/llava-v1.6-mistral-7b"),
       ("sceneDescription", "andreasjansson/blip-2"),
       ("reportGeneration", "meta/llama-2-70b-chat")] }

/-- The health handler touches no request-scoped resources: it only reads the
clock and returns the static body. -/
def healthHandler (st : FileState) (now : String) : HealthResponse × FileState :=
  (healthBody now, st)

/-! ### Auxiliary predicates and concrete fixtures -/

def exOk {ε α : Type} : Except ε α → Bool
  | .ok _ => true
  | .error _ => false

/-- `detailedPrompts` is absent, or present with exactly the three keys
`strengths`, `improvements`, `drills` (in that order). -/
def dpAllOrNothing (dp : Option (List (String × String))) : Bool :=
  match dp with
  | none => true
  | some d => decide (dpKeys d = ["strengths", "improvements", "drills"])

/-- Whether an upload request ended in the HTTP 200 branch. -/
def uploadOkB : UploadResult → Bool
  | .ok _ => true
  | _ => false

def poseOkB : PoseEndpointResult → Bool
  | .ok _ => true
  | _ => false

/-- An environment in which every outbound Replicate call fails. -/
def envAllFail : PipelineEnv :=
  { pose := fun _ _ => .error "Prediction failed",
    tech := fun _ _ => .error "Prediction failed",
    scene := fun _ _ => .error "Prediction failed",
    report := .error "Prediction failed" }

/-- An environment in which every outbound Replicate call succeeds. -/
def envAllOk : PipelineEnv :=
  { pose := fun _ _ => .ok (.arr ["http://poseurl/a", "http://poseurl/b"]),
    tech := fun _ _ => .ok (.str "stable stance"),
    scene := fun _ _ => .ok (.str "a rider carving"),
    report := .ok (.str "Overall solid riding") }

def fps3 : List String := ["uploads/frames/v/frame-1.png",
  "uploads/frames/v/frame-2.png", "uploads/frames/v/frame-3.png"]

def fps5 : List String := ["a.png", "b.png", "c.png", "d.png", "e.png"]

def uenvOk : UploadEnv :=
  { hasFile := true, usePoseAnalysis := false, videoPath := "uploads/v.mp4",
    extract := .ok (), frameFiles := fps3, pipelineEnv := envAllOk,
    multiFrame := .ok "multi frame analysis text", advanced := .ok "advanced analysis text" }

def uenvExtractFail : UploadEnv :=
  { hasFile := true, usePoseAnalysis := false, videoPath := "uploads/v.mp4",
    extract := .error "ffmpeg exited with code 1", frameFiles := [],
    pipelineEnv := envAllFail, multiFrame := .error "ECONNREFUSED",
    advanced := .error "ECONNREFUSED" }

/-- The upload response actually produced for `uenvOk` (multi-frame path, so
the synthesized-prompts branch runs). -/
def respOk : UploadResponse :=
  uploadResponseOf false (AnalysisOutcome.plain "multi frame analysis text")

def crOk : CoachingReport :=
  { briefAssessment := cleanText (TextOut.str "Overall solid riding").joinText,
    detailedPrompts := mkDetailedPrompts (detailedStrengthsPrompt "TA")
      (detailedImprovementsPrompt "TA") (detailedDrillsPrompt "TA"),
    technicalAnalysis := cleanText "TA",
    sceneDescription := cleanText "SD",
    poseAnalyses := [] }

def dataFix : AnalysisData :=
  { detailedPrompts := mkDetailedPrompts "SPROMPT" "IPROMPT" "DPROMPT",
    technicalAnalysis := "TA", sceneDescription := "SD" }

def cenvOk : ChatEnv := { llama := .ok (.str "model response") }

/-! ### Helper lemmas -/

theorem poseStep_none_iff (env : PipelineEnv) (fps : List String) (i : Nat) :
    poseStep env fps i = none ↔ exOk (env.pose i (frameAt fps i)) = false := by
  unfold poseStep
  cases h : env.pose i (frameAt fps i) <;> simp [exOk]

theorem poseStep_ok (env : PipelineEnv) (fps : List String) (i : Nat) (out : RepOut)
    (h : env.pose i (frameAt fps i) = .ok out) :
    poseStep env fps i
      = some { frame := i + 1, poseData := out, poseImageUrl := extractPoseUrl out } := by
  unfold poseStep
  rw [h]

theorem poseLoop_frames (env : PipelineEnv) (fps : List String) (l : List Nat) :
    (l.filterMap (poseStep env fps)).map PoseAnalysis.frame
      = (l.filter (fun i => exOk (env.pose i (frameAt fps i)))).map (fun i => i + 1) := by
  induction l with
  | nil => rfl
  | cons a t ih =>
    rw [List.filterMap_cons, List.filter_cons]
    cases hp : env.pose a (frameAt fps a) with
    | ok out =>
      have hex : exOk (env.pose a (frameAt fps a)) = true := by rw [hp]; rfl
      rw [poseStep_ok env fps a out hp]
      simp [exOk, ih]
    | error e =>
      have hex : exOk (env.pose a (frameAt fps a)) = false := by rw [hp]; rfl
      rw [(poseStep_none_iff env fps a).mpr hex]
      simp [exOk, ih]

theorem estimatePoses_error_iff (env : PipelineEnv) (v : String) (fps : List String) :
    exOk (estimatePoses env v fps) = false ↔
      ∀ i, i < min fps.length 5 → exOk (env.pose i (frameAt fps i)) = false := by
  constructor
  · intro h i hi
    unfold estimatePoses at h
    by_cases hl : (poseLoop env fps).length = 0
    · have hnil : poseLoop env fps = [] := List.length_eq_zero.mp hl
      unfold poseLoop at hnil
      have hall := List.filterMap_eq_nil_iff.mp hnil
      exact (poseStep_none_iff env fps i).mp (hall i (List.mem_range.mpr hi))
    · rw [if_neg hl] at h
      simp [exOk] at h
  · intro h
    have hnil : poseLoop env fps = [] := by
      unfold poseLoop
      exact List.filterMap_eq_nil_iff.mpr
        (fun i hi => (poseStep_none_iff env fps i).mpr (h i (List.mem_range.mp hi)))
    unfold estimatePoses
    simp [hnil, exOk]

theorem frameAt_eq_get (fps : List String) (i : Nat) (h : i < fps.length) :
    frameAt fps i = fps.get ⟨i, h⟩ := by
  unfold frameAt
  rw [List.getD_eq_getElem?_getD, List.getElem?_eq_getElem h]
  rfl

theorem dpKeys_mk (a b c : String) :
    dpKeys (mkDetailedPrompts a b c) = ["strengths", "improvements", "drills"] := rfl

theorem dpAllOrNothing_mk (a b c : String) :
    dpAllOrNothing (some (mkDetailedPrompts a b c)) = true := by
  simp [dpAllOrNothing, dpKeys_mk]

theorem gcr_detailedPrompts (env : PipelineEnv) (ta sc : String) (pa : List PoseAnalysis)
    (cr : CoachingReport) (h : generateCoachingReport env ta sc pa = .ok cr) :
    cr.detailedPrompts
      = mkDetailedPrompts (detailedStrengthsPrompt ta) (detailedImprovementsPrompt ta)
          (detailedDrillsPrompt ta) := by
  unfold generateCoachingReport at h
  cases hr : env.report with
  | error e => rw [hr] at h; exact absurd h (by simp)
  | ok b =>
    rw [hr] at h
    have := Except.ok.inj h
    rw [← this]

theorem poseStagesChain_ok_inv (env : PipelineEnv) (v : String) (fps : List String)
    (p : PoseResult) (ta sd : String) (cr : CoachingReport)
    (h : poseStagesChain env v fps = .ok (p, ta, sd, cr)) :
    estimatePoses env v fps = .ok p
    ∧ analyzeTechnicalMovement env fps = .ok ta
    ∧ describeScene env fps p.poseAnalyses = .ok sd
    ∧ generateCoachingReport env ta sd p.poseAnalyses = .ok cr := by
  unfold poseStagesChain at h
  cases h0 : estimatePoses env v fps <;> rw [h0] at h
  · simp at h
  case ok p0 =>
  dsimp only at h
  cases h1 : analyzeTechnicalMovement env fps <;> rw [h1] at h
  · simp at h
  case ok ta0 =>
  dsimp only at h
  cases h2 : describeScene env fps p0.poseAnalyses <;> rw [h2] at h
  · simp at h
  case ok sd0 =>
  dsimp only at h
  cases h3 : generateCoachingReport env ta0 sd0 p0.poseAnalyses <;> rw [h3] at h
  · simp at h
  case ok cr0 =>
  dsimp only at h
  simp only [Except.ok.injEq, Prod.mk.injEq] at h
  obtain ⟨hp, hta, hsd, hcr⟩ := h
  subst hp
  subst hta
  subst hsd
  subst hcr
  exact ⟨rfl, rfl, h2, h3⟩

theorem poseStagesChain_error (env : PipelineEnv) (v : String) (fps : List String)
    (e : String) (h : estimatePoses env v fps = .error e) :
    poseStagesChain env v fps = .error e := by
  unfold poseStagesChain
  rw [h]

/-- Both exits of the orchestrator carry a three-key `detailedPrompts`. -/
theorem pose_based_dp (env : PipelineEnv) (v : String) (fps : List String) :
    ∃ a b c, (analyzeSnowboardingVideoPoseBased env v fps).detailedPrompts
      = some (mkDetailedPrompts a b c) := by
  unfold analyzeSnowboardingVideoPoseBased
  cases hc : poseStagesChain env v fps with
  | error e => exact ⟨_, _, _, rfl⟩
  | ok val =>
    obtain ⟨p, ta, sd, cr⟩ := val
    have hcr := (poseStagesChain_ok_inv env v fps p ta sd cr hc).2.2.2
    have hdp := gcr_detailedPrompts env ta sd p.poseAnalyses cr hcr
    exact ⟨_, _, _, congrArg some hdp⟩

theorem runUploadAnalysis_dp (env : UploadEnv) (a : AnalysisOutcome)
    (h : runUploadAnalysis env = .ok a) :
    outcomeDetailedPrompts a = none
    ∨ ∃ x y z, outcomeDetailedPrompts a = some (mkDetailedPrompts x y z) := by
  unfold runUploadAnalysis at h
  by_cases hp : env.usePoseAnalysis = true
  · rw [if_pos hp] at h
    replace h := Except.ok.inj h
    right
    rw [← h]
    exact pose_based_dp env.pipelineEnv env.videoPath env.frameFiles
  · rw [if_neg hp] at h
    cases hm : env.multiFrame <;> rw [hm] at h
    · cases ha : env.advanced <;> rw [ha] at h
      · exact absurd h (by simp)
      · replace h := Except.ok.inj h
        left
        rw [← h]
        rfl
    · replace h := Except.ok.inj h
      left
      rw [← h]
      rfl

theorem uploadResponse_dp (use : Bool) (a : AnalysisOutcome)
    (hdp : outcomeDetailedPrompts a = none
      ∨ ∃ x y z, outcomeDetailedPrompts a = some (mkDetailedPrompts x y z)) :
    ∃ x y z, (uploadResponseOf use a).detailedPrompts = some (mkDetailedPrompts x y z) := by
  unfold uploadResponseOf
  rcases hdp with h | ⟨x, y, z, h⟩ <;> rw [h]
  · exact ⟨_, _, _, rfl⟩
  · exact ⟨x, y, z, rfl⟩

theorem uploadHandler_ok_inv (uenv : UploadEnv) (resp : UploadResponse)
    (h : (uploadHandler uenv).1 = .ok resp) :
    ∃ a, runUploadAnalysis uenv = .ok a ∧ resp = uploadResponseOf uenv.usePoseAnalysis a := by
  unfold uploadHandler at h
  by_cases hf : uenv.hasFile = true
  · rw [hf] at h
    simp only [Bool.not_true, Bool.false_eq_true, if_false] at h
    cases he : uenv.extract <;> rw [he] at h
    · exact absurd h (by simp)
    · cases ha : runUploadAnalysis uenv <;> rw [ha] at h
      · exact absurd h (by simp)
      · exact ⟨_, rfl, (UploadResult.ok.inj h).symm⟩
  · rw [Bool.not_eq_true] at hf
    rw [hf] at h
    exact absurd h (by simp)

/-! ### The claims -/

/-- Claim C1: the spec asserts that the text normalizer is idempotent
(`normalize (normalize x) = normalize x` for every `x`). The code violates
this: the rule replacing `\s*\*\s*` by `**` doubles every bare asterisk, so
`cleanText` maps `*` to `**` and `**` to `****`; re-running the normalizer on
its own output corrupts it. The spec states the intended property; the
asterisk rule is the slip. -/
theorem cleanText_star_not_idempotent :
    cleanText "*" = "**" ∧ cleanText (cleanText "*") = "****"
    ∧ cleanText (cleanText "*") ≠ cleanText "*" := by
  decide

/-- Claim C5: for every list of at least three frame paths, the
technical-analysis and scene-description stages select exactly the frames at
indices `0`, `⌊N / 2⌋` and `N - 1` of the input list, in that order
(`techKeyFrames` and `sceneKeyFrames` are the selections those stages feed to
their per-frame loops). -/
theorem key_frame_selection (fps : List String) (h : 3 ≤ fps.length) :
    techKeyFrames fps
      = [fps.get ⟨0, by omega⟩, fps.get ⟨fps.length / 2, by omega⟩,
         fps.get ⟨fps.length - 1, by omega⟩]
    ∧ sceneKeyFrames fps
      = [(fps.get ⟨0, by omega⟩, "initiation"),
         (fps.get ⟨fps.length / 2, by omega⟩, "execution"),
         (fps.get ⟨fps.length - 1, by omega⟩, "completion")] := by
  have h0 : 0 < fps.length := by omega
  have h1 : fps.length / 2 < fps.length := by omega
  have h2 : fps.length - 1 < fps.length := by omega
  constructor <;>
    simp [techKeyFrames, sceneKeyFrames, frameAt_eq_get fps 0 h0,
      frameAt_eq_get fps (fps.length / 2) h1, frameAt_eq_get fps (fps.length - 1) h2]

/-- Witness for C5 at a concrete five-frame list. -/
theorem key_frame_selection_witness :
    techKeyFrames fps5 = ["a.png", "c.png", "e.png"]
    ∧ sceneKeyFrames fps5
      = [("a.png", "initiation"), ("c.png", "execution"), ("e.png", "completion")] :=
  key_frame_selection fps5 (by decide)

/-- Claim C6: the pose stage runs the pose model on exactly the first
`min (N, 5)` frames (the loop range of `poseLoop`); a per-frame failure skips
only that frame (the successful frame indices, one-based, are exactly the
loop indices whose call succeeded, in order), and the stage errors precisely
when every one of those calls fails. -/
theorem pose_stage_skip_and_fail (env : PipelineEnv) (v : String) (fps : List String) :
    (exOk (estimatePoses env v fps) = false ↔
      ∀ i, i < min fps.length 5 → exOk (env.pose i (frameAt fps i)) = false)
    ∧ (poseLoop env fps).map PoseAnalysis.frame
      = ((List.range (min fps.length 5)).filter
          (fun i => exOk (env.pose i (frameAt fps i)))).map (fun i => i + 1) :=
  ⟨estimatePoses_error_iff env v fps,
   poseLoop_frames env fps (List.range (min fps.length 5))⟩

/-- Claim C3: when every per-frame pose call fails, the orchestrator still
returns (it is a total function into `AnalysisResult`), tagged with the
fallback pipeline identifier and carrying the non-null fallback
`detailedPrompts` whose keys are exactly `strengths`, `improvements`,
`drills`. -/
theorem all_pose_failures_fallback (env : PipelineEnv) (v : String) (fps : List String)
    (h : ∀ i, i < min fps.length 5 → exOk (env.pose i (frameAt fps i)) = false) :
    (analyzeSnowboardingVideoPoseBased env v fps).pipeline = "image-based-fallback"
    ∧ (analyzeSnowboardingVideoPoseBased env v fps).detailedPrompts
      = some fallbackDetailedPrompts
    ∧ dpKeys fallbackDetailedPrompts = ["strengths", "improvements", "drills"] := by
  have herr : exOk (estimatePoses env v fps) = false :=
    (estimatePoses_error_iff env v fps).mpr h
  obtain ⟨e, he⟩ : ∃ e, estimatePoses env v fps = .error e := by
    cases hx : estimatePoses env v fps with
    | error e => exact ⟨e, rfl⟩
    | ok p => rw [hx] at herr; simp [exOk] at herr
  have hchain := poseStagesChain_error env v fps e he
  unfold analyzeSnowboardingVideoPoseBased
  rw [hchain]
  exact ⟨rfl, rfl, rfl⟩

/-- Witness for C3: an environment in which every model call fails. -/
theorem all_pose_failures_fallback_witness :
    (analyzeSnowboardingVideoPoseBased envAllFail "uploads/v.mp4" fps3).pipeline
      = "image-based-fallback"
    ∧ (analyzeSnowboardingVideoPoseBased envAllFail "uploads/v.mp4" fps3).detailedPrompts
      = some fallbackDetailedPrompts
    ∧ dpKeys fallbackDetailedPrompts = ["strengths", "improvements", "drills"] :=
  all_pose_failures_fallback envAllFail "uploads/v.mp4" fps3 (by decide)

/-- Claim C10: `analyzeSnowboardingVideoPoseBased` is total (every outcome,
including one where every model call throws, lands in one of the two return
literals), always reports `success = true`, and only the `pipeline` field
records whether the staged run or the fallback produced the report. -/
theorem pose_pipeline_reports_success (env : PipelineEnv) (v : String) (fps : List String) :
    (analyzeSnowboardingVideoPoseBased env v fps).success = true
    ∧ ((analyzeSnowboardingVideoPoseBased env v fps).pipeline = "pose-based-4stage"
        ↔ exOk (poseStagesChain env v fps) = true)
    ∧ ((analyzeSnowboardingVideoPoseBased env v fps).pipeline = "image-based-fallback"
        ↔ exOk (poseStagesChain env v fps) = false) := by
  unfold analyzeSnowboardingVideoPoseBased
  cases hc : poseStagesChain env v fps with
  | ok val =>
    obtain ⟨p, ta, sd, cr⟩ := val
    refine ⟨rfl, ?_, ?_⟩ <;> simp [exOk]
  | error e =>
    refine ⟨rfl, ?_, ?_⟩ <;> simp [exOk]

/-- Claim C2: every report shape the code can produce carries a
`detailedPrompts` that is never a partial subset: the orchestrator's two
exits, a successful `generateCoachingReport`, every 200 response of
`/api/upload` (including the synthesized-prompts branch), and the
`/api/analyze-pose` response all carry exactly the keys `strengths`,
`improvements`, `drills` (absent is also allowed by the claim but never
occurs on these paths). -/
theorem report_prompts_all_or_nothing (env : PipelineEnv) (v : String) (fps : List String)
    (uenv : UploadEnv) (resp : UploadResponse) (ta sc : String) (pa : List PoseAnalysis)
    (cr : CoachingReport)
    (h1 : (uploadHandler uenv).1 = UploadResult.ok resp)
    (h2 : generateCoachingReport env ta sc pa = Except.ok cr) :
    dpAllOrNothing (analyzeSnowboardingVideoPoseBased env v fps).detailedPrompts = true
    ∧ dpKeys cr.detailedPrompts = ["strengths", "improvements", "drills"]
    ∧ resp.detailedPrompts ≠ none
    ∧ dpAllOrNothing resp.detailedPrompts = true
    ∧ dpAllOrNothing
        (poseResponseOf (analyzeSnowboardingVideoPoseBased env v fps)).detailedPrompts
      = true := by
  obtain ⟨a, b, c, hd⟩ := pose_based_dp env v fps
  obtain ⟨a0, ha, hresp⟩ := uploadHandler_ok_inv uenv resp h1
  obtain ⟨x, y, z, hu⟩ :=
    uploadResponse_dp uenv.usePoseAnalysis a0 (runUploadAnalysis_dp uenv a0 ha)
  refine ⟨?_, ?_, ?_, ?_, ?_⟩
  · rw [hd]; exact dpAllOrNothing_mk a b c
  · rw [gcr_detailedPrompts env ta sc pa cr h2]; exact dpKeys_mk _ _ _
  · rw [hresp, hu]; simp
  · rw [hresp, hu]; exact dpAllOrNothing_mk x y z
  · show dpAllOrNothing (analyzeSnowboardingVideoPoseBased env v fps).detailedPrompts = true
    rw [hd]; exact dpAllOrNothing_mk a b c

/-- Witness for C2 at a concrete all-success environment (upload on the
multi-frame path, so the synthesized-prompts branch is exercised). -/
theorem report_prompts_all_or_nothing_witness :
    dpAllOrNothing
        (analyzeSnowboardingVideoPoseBased envAllOk "uploads/v.mp4" fps3).detailedPrompts
      = true
    ∧ dpKeys crOk.detailedPrompts = ["strengths", "improvements", "drills"]
    ∧ respOk.detailedPrompts ≠ none
    ∧ dpAllOrNothing respOk.detailedPrompts = true
    ∧ dpAllOrNothing
        (poseResponseOf
          (analyzeSnowboardingVideoPoseBased envAllOk "uploads/v.mp4" fps3)).detailedPrompts
      = true :=
  report_prompts_all_or_nothing envAllOk "uploads/v.mp4" fps3 uenvOk respOk
    "TA" "SD" [] crOk rfl rfl

/-- Counterexample to claim C4 as stated: a question containing both `drill`
and `good` does NOT select the drills template — `good` belongs to the
strengths keyword set, which is checked first, so the strengths branch wins. -/
theorem chat_drill_good_counter :
    strIncludes (lowerStr "Any good drill?") "drill" = true
    ∧ strIncludes (lowerStr "Any good drill?") "good" = true
    ∧ (chatRoute "Any good drill?" dataFix).sectionType = "Key Strengths"
    ∧ (chatRoute "Any good drill?" dataFix).sectionType ≠ "Specific Drills and Exercises" := by
  decide

/-- Claim C4, amended: a question containing `drill` selects the drills
template provided it contains none of the earlier-checked keywords — the
strengths set (`strength`, `good`, `positive`) and the improvements set
(`improve`, `problem`, `issue`, `better`); the fixed check order is strengths,
then improvements, then drills, then generic, first match winning. -/
theorem chat_drill_routing (question : String) (d : AnalysisData)
    (hd : strIncludes (lowerStr question) "drill" = true)
    (h1 : strIncludes (lowerStr question) "strength" = false)
    (h2 : strIncludes (lowerStr question) "good" = false)
    (h3 : strIncludes (lowerStr question) "positive" = false)
    (h4 : strIncludes (lowerStr question) "improve" = false)
    (h5 : strIncludes (lowerStr question) "problem" = false)
    (h6 : strIncludes (lowerStr question) "issue" = false)
    (h7 : strIncludes (lowerStr question) "better" = false) :
    chatRoute question d
      = { prompt := d.detailedPrompts.lookup "drills",
          sectionType := "Specific Drills and Exercises" } := by
  simp [chatRoute, hd, h1, h2, h3, h4, h5, h6, h7]

/-- Witness for the amended C4. -/
theorem chat_drill_routing_witness :
    chatRoute "Show me a drill" dataFix
      = { prompt := dataFix.detailedPrompts.lookup "drills",
          sectionType := "Specific Drills and Exercises" } :=
  chat_drill_routing "Show me a drill" dataFix (by decide) (by decide) (by decide)
    (by decide) (by decide) (by decide) (by decide) (by decide)

/-- Counterexample to claim C7 as stated: on the frame-extraction-failure
exit of `/api/upload` the handler answers HTTP 500 without deleting anything —
the uploaded video and the frame directory are still on disk when the
response is sent. -/
theorem upload_no_cleanup_on_extract_failure :
    (uploadHandler uenvExtractFail).1 = UploadResult.serverError "ffmpeg exited with code 1"
    ∧ (uploadHandler uenvExtractFail).2.videoExists = true
    ∧ (uploadHandler uenvExtractFail).2.frameDirExists = true := by
  decide

/-- Claim C7, amended: for a request that did upload a file, the video and
frame directory are deleted if and only if the handler reaches its 200
response (frame extraction and the analysis chain succeeded); on every error
exit they remain on disk. The same holds for `/api/analyze-pose`. -/
theorem upload_cleanup_iff_success (uenv : UploadEnv) (h : uenv.hasFile = true) :
    ((uploadHandler uenv).2.videoExists = !uploadOkB (uploadHandler uenv).1
      ∧ (uploadHandler uenv).2.frameDirExists = !uploadOkB (uploadHandler uenv).1)
    ∧ ((analyzePoseHandler uenv).2.videoExists = !poseOkB (analyzePoseHandler uenv).1
      ∧ (analyzePoseHandler uenv).2.frameDirExists
          = !poseOkB (analyzePoseHandler uenv).1) := by
  unfold uploadHandler analyzePoseHandler
  rw [h]
  cases he : uenv.extract with
  | error e => simp [uploadOkB, poseOkB]
  | ok u =>
    cases ha : runUploadAnalysis uenv with
    | error e => simp [uploadOkB, poseOkB]
    | ok a => simp [uploadOkB, poseOkB]

/-- Witness for the amended C7 on a fully successful request. -/
theorem upload_cleanup_iff_success_witness :
    ((uploadHandler uenvOk).2.videoExists = !uploadOkB (uploadHandler uenvOk).1
      ∧ (uploadHandler uenvOk).2.frameDirExists = !uploadOkB (uploadHandler uenvOk).1)
    ∧ ((analyzePoseHandler uenvOk).2.videoExists = !poseOkB (analyzePoseHandler uenvOk).1
      ∧ (analyzePoseHandler uenvOk).2.frameDirExists
          = !poseOkB (analyzePoseHandler uenvOk).1) :=
  upload_cleanup_iff_success uenvOk rfl

/-- Claim C8: a chat request asking `What are my strengths?` against data
carrying a strengths template routes to that template (`sectionType` is
`Key Strengths`, the submitted prompt is the strengths entry), and on a
successful model call the 200 response reports `sectionType` `Key
Strengths`. -/
theorem chat_strengths_question (env : ChatEnv) (d : AnalysisData) (s : String) (out : TextOut)
    (h1 : d.detailedPrompts.lookup "strengths" = some s)
    (h2 : env.llama = Except.ok out) :
    (chatRoute "What are my strengths?" d).sectionType = "Key Strengths"
    ∧ (chatRoute "What are my strengths?" d).prompt = some s
    ∧ chatHandler env "What are my strengths?" d
        = ChatResult.ok
            { success := true, response := cleanText out.joinText,
              sectionType := "Key Strengths",
              message := "Response generated successfully" } := by
  have hq : (strIncludes (lowerStr "What are my strengths?") "strength"
      || strIncludes (lowerStr "What are my strengths?") "good"
      || strIncludes (lowerStr "What are my strengths?") "positive") = true := by decide
  have hroute : chatRoute "What are my strengths?" d
      = { prompt := d.detailedPrompts.lookup "strengths", sectionType := "Key Strengths" } := by
    simp [chatRoute, hq]
  refine ⟨by rw [hroute], by rw [hroute, h1], ?_⟩
  have hne : ¬ ("What are my strengths?" = "") := by decide
  simp [chatHandler, hne, hroute, h2]

/-- Witness for C8. -/
theorem chat_strengths_question_witness :
    (chatRoute "What are my strengths?" dataFix).sectionType = "Key Strengths"
    ∧ (chatRoute "What are my strengths?" dataFix).prompt = some "SPROMPT"
    ∧ chatHandler cenvOk "What are my strengths?" dataFix
        = ChatResult.ok
            { success := true,
              response := cleanText (TextOut.str "model response").joinText,
              sectionType := "Key Strengths",
              message := "Response generated successfully" } :=
  chat_strengths_question cenvOk dataFix "SPROMPT" (TextOut.str "model response")
    (by decide) rfl

/-- Counterexample to claim C9 as stated: the health body embeds
`new Date().toISOString()`, so two invocations at different clock readings
return different JSON bodies — the endpoint is not static. -/
theorem health_not_static :
    healthBody "2025-01-01T00:00:00.000Z" ≠ healthBody "2025-01-01T00:00:01.000Z" := by
  decide

/-- Claim C9, amended: `GET /api/health` is side-effect free and static
except for its `timestamp` field: every field other than `timestamp` is the
same across invocations, `timestamp` is exactly the clock reading, and
handling the request leaves the server's request-scoped state untouched. -/
theorem health_static_modulo_timestamp (t1 t2 : String) (st : FileState) :
    (healthBody t1).status = (healthBody t2).status
    ∧ (healthBody t1).pipelines = (healthBody t2).pipelines
    ∧ (healthBody t1).models = (healthBody t2).models
    ∧ (healthBody t1).timestamp = t1
    ∧ healthHandler st t1 = (healthBody t1, st) :=
  ⟨rfl, rfl, rfl, rfl, rfl⟩

end SC
